import Mathlib

/-!
Verification of the k8s-stats pod monitor.

Shallow embedding of the three source files:
* src/k8s-pod-monitor/main.py   (classifier, snapshot store, diff engine)
* src/k8s-pod-monitor/web_server.py  (scan orchestrator, cached view)
* src/pod_state.py  (second classifier variant, PodAnalyzer / ClusterMonitor)

Machine-level concerns (real clocks, the Kubernetes API transport, JSON text
encoding, OS files, Python threads) are modelled by explicit parameters:
time stamps are passed in as values, the file system is an association list
from file names to JSON trees, thread interleaving is modelled by the value
of the scan-lock flag at the moment a request arrives, and exceptions are
Except values.
-/

/-- One abnormal-pod record as built by check_abnormal_pods in main.py
(a Python dict with seven string fields).  The field ns models the
dict key "namespace" (a Lean keyword). -/
structure PodRecord where
  timestamp : String
  cluster : String
  ns : String
  pod : String
  status : String
  node : String
  reasons : String
deriving DecidableEq, Repr

/-- The composite identity key (cluster, namespace, pod) used by the diff
engine in main.py. -/
abbrev Key : Type := String × String × String

/-- key p models the tuple (p["cluster"], p["namespace"], p["pod"]). -/
def key (p : PodRecord) : Key := (p.cluster, p.ns, p.pod)

/-- DiffResult models the dict {"new": ..., "ongoing": ..., "resolved": ...}
returned by analyze_changes / analyze_changes_python in main.py. -/
structure DiffResult where
  new : List PodRecord
  ongoing : List PodRecord
  resolved : List PodRecord
deriving DecidableEq, Repr

/-- analyze_changes_python from main.py (lines 134-142): builds the key sets
of both snapshots, subtracts and intersects them, then filters each source
list by key membership.  Python set membership is modelled by list
membership of the mapped key lists (which agrees with the set semantics). -/
def analyze_changes_python (today_pods yesterday_pods : List PodRecord) : DiffResult :=
  let today_set := today_pods.map key
  let yesterday_set := yesterday_pods.map key
  { new := today_pods.filter
      (fun p => decide (key p ∈ today_set ∧ key p ∉ yesterday_set))
    ongoing := today_pods.filter
      (fun p => decide (key p ∈ today_set ∧ key p ∈ yesterday_set))
    resolved := yesterday_pods.filter
      (fun p => decide (key p ∈ yesterday_set ∧ key p ∉ today_set)) }

/-- The three key lists the Rust accelerator returns (main.py lines 154-156:
the keys parsed back out of the JSON result of analyze_pod_changes). -/
structure RustResult where
  new : List Key
  ongoing : List Key
  resolved : List Key

/-- analyze_changes from main.py (lines 144-163).  The optional accelerator
is a strategy receiving only the (cluster, namespace, pod) projections of
both collections; any exception raised while calling it or decoding its
result is an Except.error and falls back to analyze_changes_python.
accel = none models RUST_ACCELERATOR_ENABLED = False. -/
def analyze_changes (accel : Option (List Key → List Key → Except String RustResult))
    (today_pods yesterday_pods : List PodRecord) : DiffResult :=
  match accel with
  | none => analyze_changes_python today_pods yesterday_pods
  | some f =>
    match f (today_pods.map key) (yesterday_pods.map key) with
    | Except.error _ => analyze_changes_python today_pods yesterday_pods
    | Except.ok r =>
      { new := today_pods.filter (fun p => decide (key p ∈ r.new))
        ongoing := today_pods.filter (fun p => decide (key p ∈ r.ongoing))
        resolved := yesterday_pods.filter (fun p => decide (key p ∈ r.resolved)) }

lemma mem_filter_by_key (l : List PodRecord) (q : Key → Prop) [DecidablePred q]
    (r : PodRecord) :
    r ∈ l.filter (fun p => decide (q (key p))) ↔ r ∈ l ∧ q (key r) := by
  simp [List.mem_filter]

lemma mem_map_key_filter (l : List PodRecord) (q : Key → Prop) [DecidablePred q]
    (k : Key) :
    k ∈ (l.filter (fun p => decide (q (key p)))).map key ↔ k ∈ l.map key ∧ q k := by
  simp only [List.mem_map, List.mem_filter, decide_eq_true_eq]
  constructor
  · rintro ⟨r, ⟨hr, hq⟩, rfl⟩
    exact ⟨⟨r, hr, rfl⟩, hq⟩
  · rintro ⟨⟨r, hr, rfl⟩, hq⟩
    exact ⟨r, ⟨hr, hq⟩, rfl⟩

/-- Claim C1: for record collections with unique composite keys within each
collection, analyze_changes_python returns three buckets where new holds
exactly the current records whose key is absent from the previous snapshot,
ongoing exactly the current records whose key is also present, and resolved
exactly the previous records whose key is absent from the current snapshot;
the three key sets are pairwise disjoint, new plus ongoing covers exactly
keys(current), resolved is keys(previous) minus keys(current), and the
buckets cover exactly keys(current) union keys(previous). -/
theorem analyze_changes_python_buckets (t y : List PodRecord)
    (ht : (t.map key).Nodup) (hy : (y.map key).Nodup) :
    (∀ r, r ∈ (analyze_changes_python t y).new ↔ r ∈ t ∧ key r ∉ y.map key) ∧
    (∀ r, r ∈ (analyze_changes_python t y).ongoing ↔ r ∈ t ∧ key r ∈ y.map key) ∧
    (∀ r, r ∈ (analyze_changes_python t y).resolved ↔ r ∈ y ∧ key r ∉ t.map key) ∧
    (∀ k, ¬ (k ∈ (analyze_changes_python t y).new.map key ∧
             k ∈ (analyze_changes_python t y).ongoing.map key)) ∧
    (∀ k, ¬ (k ∈ (analyze_changes_python t y).new.map key ∧
             k ∈ (analyze_changes_python t y).resolved.map key)) ∧
    (∀ k, ¬ (k ∈ (analyze_changes_python t y).ongoing.map key ∧
             k ∈ (analyze_changes_python t y).resolved.map key)) ∧
    (∀ k, (k ∈ (analyze_changes_python t y).new.map key ∨
           k ∈ (analyze_changes_python t y).ongoing.map key) ↔ k ∈ t.map key) ∧
    (∀ k, k ∈ (analyze_changes_python t y).resolved.map key ↔
          (k ∈ y.map key ∧ k ∉ t.map key)) ∧
    (∀ k, (k ∈ (analyze_changes_python t y).new.map key ∨
           k ∈ (analyze_changes_python t y).ongoing.map key ∨
           k ∈ (analyze_changes_python t y).resolved.map key) ↔
          (k ∈ t.map key ∨ k ∈ y.map key)) := by
  have hnew : ∀ k, k ∈ (analyze_changes_python t y).new.map key ↔
      k ∈ t.map key ∧ (k ∈ t.map key ∧ k ∉ y.map key) :=
    fun k => mem_map_key_filter t (fun k => k ∈ t.map key ∧ k ∉ y.map key) k
  have hong : ∀ k, k ∈ (analyze_changes_python t y).ongoing.map key ↔
      k ∈ t.map key ∧ (k ∈ t.map key ∧ k ∈ y.map key) :=
    fun k => mem_map_key_filter t (fun k => k ∈ t.map key ∧ k ∈ y.map key) k
  have hres : ∀ k, k ∈ (analyze_changes_python t y).resolved.map key ↔
      k ∈ y.map key ∧ (k ∈ y.map key ∧ k ∉ t.map key) :=
    fun k => mem_map_key_filter y (fun k => k ∈ y.map key ∧ k ∉ t.map key) k
  refine ⟨?_, ?_, ?_, ?_, ?_, ?_, ?_, ?_, ?_⟩
  · intro r
    constructor
    · intro hr
      have h := (mem_filter_by_key t (fun k => k ∈ t.map key ∧ k ∉ y.map key) r).mp hr
      exact ⟨h.1, h.2.2⟩
    · intro hr
      exact (mem_filter_by_key t (fun k => k ∈ t.map key ∧ k ∉ y.map key) r).mpr
        ⟨hr.1, List.mem_map_of_mem key hr.1, hr.2⟩
  · intro r
    constructor
    · intro hr
      have h := (mem_filter_by_key t (fun k => k ∈ t.map key ∧ k ∈ y.map key) r).mp hr
      exact ⟨h.1, h.2.2⟩
    · intro hr
      exact (mem_filter_by_key t (fun k => k ∈ t.map key ∧ k ∈ y.map key) r).mpr
        ⟨hr.1, List.mem_map_of_mem key hr.1, hr.2⟩
  · intro r
    constructor
    · intro hr
      have h := (mem_filter_by_key y (fun k => k ∈ y.map key ∧ k ∉ t.map key) r).mp hr
      exact ⟨h.1, h.2.2⟩
    · intro hr
      exact (mem_filter_by_key y (fun k => k ∈ y.map key ∧ k ∉ t.map key) r).mpr
        ⟨hr.1, List.mem_map_of_mem key hr.1, hr.2⟩
  · intro k
    rw [hnew k, hong k]
    tauto
  · intro k
    rw [hnew k, hres k]
    tauto
  · intro k
    rw [hong k, hres k]
    tauto
  · intro k
    rw [hnew k, hong k]
    tauto
  · intro k
    rw [hres k]
    tauto
  · intro k
    rw [hnew k, hong k, hres k]
    tauto

/-- Two concrete records used to instantiate the diff-engine theorems. -/
def rec1 : PodRecord :=
  { timestamp := "t1", cluster := "a", ns := "default", pod := "p1",
    status := "Failed", node := "n1", reasons := "OOMKilled" }

def rec2 : PodRecord :=
  { timestamp := "t0", cluster := "a", ns := "default", pod := "p2",
    status := "Pending", node := "N/A", reasons := "N/A" }

/-- Witness for claim C1 at current = [rec1], previous = [rec2]:
the uniqueness hypotheses hold and the first bucket characterisation
follows by applying the theorem. -/
theorem analyze_changes_python_buckets_witness :
    ([rec1].map key).Nodup ∧ ([rec2].map key).Nodup ∧
    (∀ r, r ∈ (analyze_changes_python [rec1] [rec2]).new ↔
          r ∈ [rec1] ∧ key r ∉ [rec2].map key) :=
  ⟨by decide, by decide,
   (analyze_changes_python_buckets [rec1] [rec2] (by decide) (by decide)).1⟩

/-- Claim C2: when the acceleration strategy fails on the key projections of
the two inputs, analyze_changes returns exactly the result of the reference
implementation analyze_changes_python, and (by totality of the function) no
error reaches the caller. -/
theorem analyze_changes_accel_failure_falls_back
    (f : List Key → List Key → Except String RustResult)
    (t y : List PodRecord) (e : String)
    (h : f (t.map key) (y.map key) = Except.error e) :
    analyze_changes (some f) t y = analyze_changes_python t y := by
  simp [analyze_changes, h]

/-- Witness for claim C2: a strategy that always raises makes analyze_changes
produce the reference result on concrete inputs. -/
theorem analyze_changes_accel_failure_falls_back_witness :
    analyze_changes
        (some (fun _ _ => (Except.error "accelerator crashed" : Except String RustResult)))
        [rec1] [rec2]
      = analyze_changes_python [rec1] [rec2] :=
  analyze_changes_accel_failure_falls_back
    (fun _ _ => Except.error "accelerator crashed") [rec1] [rec2]
    "accelerator crashed" rfl

/-- JSON trees, the serialisation target of json.dump / json.load in the
snapshot store of main.py.  Only the constructors the store produces are
modelled (records are objects of string fields inside one array). -/
inductive J where
  | str : String → J
  | arr : List J → J
  | obj : List (String × J) → J

/-- A calendar date as used by datetime.strftime("%Y%m%d"). -/
structure Date where
  year : Nat
  month : Nat
  day : Nat

def pad2 (n : Nat) : String :=
  if n < 10 then "0" ++ toString n else toString n

def pad4 (n : Nat) : String :=
  if n < 10 then "000" ++ toString n
  else if n < 100 then "00" ++ toString n
  else if n < 1000 then "0" ++ toString n
  else toString n

/-- date.strftime("%Y%m%d"): zero padded, independent of time of day. -/
def strftime_ymd (d : Date) : String :=
  pad4 d.year ++ pad2 d.month ++ pad2 d.day

/-- The snapshot resource name f"abnormal_pods_{date}.json" from main.py. -/
def snapshot_file_name (d : Date) : String :=
  "abnormal_pods_" ++ strftime_ymd d ++ ".json"

/-- json.dump of one record dict (main.py line 119): an object holding the
seven string fields in insertion order. -/
def record_to_json (r : PodRecord) : J :=
  J.obj [("timestamp", J.str r.timestamp), ("cluster", J.str r.cluster),
         ("namespace", J.str r.ns), ("pod", J.str r.pod),
         ("status", J.str r.status), ("node", J.str r.node),
         ("reasons", J.str r.reasons)]

/-- Dict access by key on a parsed JSON object. -/
def get_field (k : String) : List (String × J) → Option J
  | [] => none
  | (k2, v) :: rest => if k2 = k then some v else get_field k rest

def get_str : Option J → Option String
  | some (J.str s) => some s
  | _ => none

/-- Reading one record dict back from JSON: all seven string fields must be
present, otherwise the parse fails. -/
def record_from_json : J → Option PodRecord
  | J.obj fields =>
    match get_str (get_field "timestamp" fields), get_str (get_field "cluster" fields),
          get_str (get_field "namespace" fields), get_str (get_field "pod" fields),
          get_str (get_field "status" fields), get_str (get_field "node" fields),
          get_str (get_field "reasons" fields) with
    | some ts, some c, some n, some p, some st, some nd, some rs =>
      some { timestamp := ts, cluster := c, ns := n, pod := p,
             status := st, node := nd, reasons := rs }
    | _, _, _, _, _, _, _ => none
  | _ => none

def records_from_json_list : List J → Option (List PodRecord)
  | [] => some []
  | j :: rest =>
    match record_from_json j, records_from_json_list rest with
    | some r, some rs => some (r :: rs)
    | _, _ => none

/-- json.load of a whole snapshot file: an array of record objects. -/
def records_from_json : J → Option (List PodRecord)
  | J.arr xs => records_from_json_list xs
  | _ => none

/-- The data directory as a store from file names to JSON contents; the most
recent write for a name shadows older ones (os.replace overwrites). -/
def FileStore : Type := List (String × J)

def store_lookup : FileStore → String → Option J
  | [], _ => none
  | (k, v) :: rest, n => if k = n then some v else store_lookup rest n

/-- save_to_file from main.py (lines 114-123): serialises the record list to
the date-keyed file via write-to-temporary-then-atomic-rename, modelled as
one atomic store update.  An IOError during the write is caught inside the
function (only an error line is printed): the store is left unchanged and no
exception propagates, which write_fails = true models. -/
def save_to_file (fs : FileStore) (pods : List PodRecord) (d : Date)
    (write_fails : Bool) : FileStore :=
  if write_fails then fs
  else (snapshot_file_name d, J.arr (pods.map record_to_json)) :: fs

/-- load_from_file from main.py (lines 125-132): an absent file or a file
that fails to parse yields the empty list, never an exception. -/
def load_from_file (fs : FileStore) (d : Date) : List PodRecord :=
  match store_lookup fs (snapshot_file_name d) with
  | none => []
  | some j =>
    match records_from_json j with
    | some rs => rs
    | none => []

lemma record_from_json_round_trip (r : PodRecord) :
    record_from_json (record_to_json r) = some r := rfl

lemma records_from_json_list_round_trip (l : List PodRecord) :
    records_from_json_list (l.map record_to_json) = some l := by
  induction l with
  | nil => rfl
  | cons r rest ih =>
    simp [records_from_json_list, record_from_json_round_trip, ih]

/-- Claim C8: saving a record list under a date and loading that date back
returns records with identical keys and field values in the same order
(write_fails = false is the successful-save path the claim describes). -/
theorem save_load_round_trip (fs : FileStore) (r : List PodRecord) (d : Date) :
    load_from_file (save_to_file fs r d false) d = r := by
  show load_from_file ((snapshot_file_name d, J.arr (r.map record_to_json)) :: fs) d = r
  simp [load_from_file, store_lookup, records_from_json,
        records_from_json_list_round_trip]

/-- NORMAL_POD_PHASES from main.py line 24. -/
def NORMAL_POD_PHASES : List String := ["Succeeded", "Running"]

/-- Python truthiness of an optional string: None and "" are falsy. -/
def py_truthy : Option String → Bool
  | none => false
  | some s => !s.isEmpty

/-- x or "N/A" on an optional string (main.py lines 63-64). -/
def or_na : Option String → String
  | none => "N/A"
  | some s => if s.isEmpty then "N/A" else s

/-- One container state as read by check_abnormal_pods in main.py
(cs.state.waiting / cs.state.terminated, each optional, with an optional
reason string inside). -/
structure MainWaiting where
  reason : Option String
deriving DecidableEq, Repr

structure MainTerminated where
  reason : Option String
deriving DecidableEq, Repr

structure MainContainerState where
  waiting : Option MainWaiting
  terminated : Option MainTerminated
deriving DecidableEq, Repr

/-- One entry of pod.status.container_statuses as used by main.py.  The
field name is carried by the API object; check_abnormal_pods never reads
it, which claim C7 is about. -/
structure MainContainerStatus where
  name : String
  ready : Bool
  state : MainContainerState
  restart_count : Nat
deriving DecidableEq, Repr

/-- One pod as read by check_abnormal_pods in main.py.  container_statuses
collapses the Python None and [] cases (both falsy, iterated identically);
node_name models pod.spec.node_name. -/
structure MainPod where
  ns : String
  name : String
  phase : String
  status_reason : Option String
  container_statuses : List MainContainerStatus
  node_name : Option String
deriving DecidableEq, Repr

/-- The is_abnormal flag computed in main.py lines 43-49: phase outside
NORMAL_POD_PHASES, or phase Running with a non-empty container status list
in which not every container is ready. -/
def main_is_abnormal (p : MainPod) : Bool :=
  (!(decide (p.phase ∈ NORMAL_POD_PHASES))) ||
  (decide (p.phase = "Running") && (!p.container_statuses.isEmpty) &&
   (!(p.container_statuses.all (fun cs => cs.ready))))

/-- The reason strings an abnormal pod accumulates in main.py lines 50-59:
the top-level status reason if truthy, then per container the waiting
reason, the terminated reason, and "Restarts(N)" when the restart count is
positive. -/
def main_container_reasons (cs : MainContainerStatus) : List String :=
  (match cs.state.waiting with
   | some w => if py_truthy w.reason then [w.reason.getD ""] else []
   | none => []) ++
  (match cs.state.terminated with
   | some t => if py_truthy t.reason then [t.reason.getD ""] else []
   | none => []) ++
  (if cs.restart_count > 0 then ["Restarts(" ++ toString cs.restart_count ++ ")"] else [])

def main_reasons (p : MainPod) : List String :=
  (if py_truthy p.status_reason then [p.status_reason.getD ""] else []) ++
  (p.container_statuses.map main_container_reasons).flatten

/-- Lexicographic comparison of character lists by Unicode code point,
the order Python sorted uses on strings. -/
def chars_le : List Char → List Char → Bool
  | [], _ => true
  | _ :: _, [] => false
  | a :: as, b :: bs =>
    if a.toNat < b.toNat then true
    else if b.toNat < a.toNat then false
    else chars_le as bs

def str_le (a b : String) : Bool := chars_le a.data b.data

/-- The string order of Python sorted, as a proposition. -/
abbrev StrLe : String → String → Prop := fun a b => str_le a b = true

lemma chars_le_total (as bs : List Char) :
    chars_le as bs = true ∨ chars_le bs as = true := by
  induction as generalizing bs with
  | nil => left; rfl
  | cons a as ih =>
    cases bs with
    | nil => right; rfl
    | cons b bs =>
      rcases Nat.lt_trichotomy a.toNat b.toNat with h | h | h
      · left; simp [chars_le, h]
      · rcases ih bs with h2 | h2
        · left; simp [chars_le, h, h2]
        · right; simp [chars_le, h.symm, h2]
      · right; simp [chars_le, h]

lemma chars_le_trans (as bs cs : List Char) (h1 : chars_le as bs = true)
    (h2 : chars_le bs cs = true) : chars_le as cs = true := by
  induction as generalizing bs cs with
  | nil => rfl
  | cons a as ih =>
    cases bs with
    | nil => simp [chars_le] at h1
    | cons b bs =>
      cases cs with
      | nil => simp [chars_le] at h2
      | cons c cs =>
        simp only [chars_le] at h1 h2 ⊢
        rcases Nat.lt_trichotomy a.toNat b.toNat with hab | hab | hab
        · rcases Nat.lt_trichotomy b.toNat c.toNat with hbc | hbc | hbc
          · simp [Nat.lt_trans hab hbc]
          · simp [hbc ▸ hab]
          · simp [chars_le, hbc, Nat.lt_asymm hbc] at h2
        · rcases Nat.lt_trichotomy b.toNat c.toNat with hbc | hbc | hbc
          · simp [hab ▸ hbc]
          · simp only [hab, hbc] at *
            simp only [Nat.lt_irrefl, if_neg (fun h => Nat.lt_irrefl _ h)] at h1 h2 ⊢
            simp_all
            exact ih bs cs h1 h2
          · simp [chars_le, hbc, Nat.lt_asymm hbc] at h2
        · simp [chars_le, hab, Nat.lt_asymm hab] at h1

instance : IsTotal String StrLe :=
  ⟨fun a b => chars_le_total a.data b.data⟩

instance : IsTrans String StrLe :=
  ⟨fun a b c => chars_le_trans a.data b.data c.data⟩

/-- sorted(list(set(reasons))) from main.py line 64: the distinct reasons in
increasing string order. -/
def sorted_dedup (rs : List String) : List String :=
  (rs.dedup).insertionSort StrLe

/-- ", ".join(sorted(list(set(reasons)))) or "N/A" from main.py line 64. -/
def display_reasons (rs : List String) : String :=
  let joined := String.intercalate ", " (sorted_dedup rs)
  if joined.isEmpty then "N/A" else joined

/-- The pod_info dict built in main.py lines 60-65.  The per-record
datetime.now().isoformat() is passed in as ts. -/
def main_record_of (ts cluster : String) (p : MainPod) : PodRecord :=
  { timestamp := ts, cluster := cluster, ns := p.ns, pod := p.name,
    status := p.phase, node := or_na p.node_name,
    reasons := display_reasons (main_reasons p) }

/-- check_abnormal_pods from main.py (lines 38-70) on an already-listed pod
collection: every pod whose is_abnormal flag is set contributes one record,
in input order. -/
def check_abnormal_pods (ts cluster : String) (pods : List MainPod) : List PodRecord :=
  (pods.filter main_is_abnormal).map (main_record_of ts cluster)

/-- A single-quote character as a string, used by the f-strings of
pod_state.py around container names. -/
def squote : String := String.mk [Char.ofNat 39]

/-- Python str() of an optional string as an f-string renders None as
"None" (pod_state.py interpolates condition.reason etc. directly). -/
def py_repr : Option String → String
  | none => "None"
  | some s => s

def py_repr_int : Option Int → String
  | none => "None"
  | some i => toString i

/-- x or default on an optional string (both None and "" fall through). -/
def py_or (o : Option String) (d : String) : String :=
  match o with
  | none => d
  | some s => if s.isEmpty then d else s

/-- V1ContainerStateWaiting as read by pod_state.py. -/
structure StateWaiting where
  reason : Option String
  message : Option String
deriving DecidableEq, Repr

/-- V1ContainerStateTerminated as read by pod_state.py. -/
structure StateTerminated where
  reason : Option String
  message : Option String
  exit_code : Option Int
deriving DecidableEq, Repr

/-- V1ContainerState: running is modelled by presence (the source only
tests the running sub-object for truthiness). -/
structure ContainerState where
  running : Bool
  waiting : Option StateWaiting
  terminated : Option StateTerminated
deriving DecidableEq, Repr

/-- V1ContainerStatus as read by pod_state.py. -/
structure ContainerStatus where
  name : String
  ready : Bool
  restart_count : Nat
  state : Option ContainerState
deriving DecidableEq, Repr

/-- V1PodCondition as read by _analyze_pending_conditions. -/
structure PodCondition where
  type : String
  status : String
  reason : Option String
  message : Option String
deriving DecidableEq, Repr

/-- V1PodStatus as read by pod_state.py.  conditions and
container_statuses collapse the Python None and [] cases. -/
structure PodStatusFields where
  phase : String
  reason : Option String
  message : Option String
  conditions : List PodCondition
  container_statuses : List ContainerStatus
deriving DecidableEq, Repr

/-- Pod metadata as read by pod_state.py.  creation_epoch is the result of
parsing metadata.creation_timestamp with datetime.fromisoformat, in epoch
seconds; none models a timestamp the parse raises on. -/
structure PodMeta where
  ns : String
  name : String
  creation_epoch : Option Int
deriving DecidableEq, Repr

/-- One pod as read by pod_state.py; node_name models spec.node_name. -/
structure Pod where
  metadata : PodMeta
  node_name : Option String
  status : PodStatusFields
deriving DecidableEq, Repr

/-- PodAnalyzer._get_container_state from pod_state.py (lines 135-148). -/
def _get_container_state : Option ContainerState → String
  | none => "Unknown"
  | some st =>
    if st.running then "Running"
    else match st.waiting with
    | some w => "Waiting (" ++ py_or w.reason "Unknown reason" ++ ")"
    | none =>
      match st.terminated with
      | some t => "Terminated (" ++ py_or t.reason "Unknown reason" ++ ")"
      | none => "Unknown"

/-- The "%.1f" rendering of the pending duration in minutes (pod_state.py
line 164), modelled as truncation to one decimal digit. -/
def minutes_one_decimal (secs : Int) : String :=
  let tenths := secs * 10 / 60
  toString (tenths / 10) ++ "." ++ toString (tenths % 10)

/-- PodAnalyzer._analyze_pending_conditions from pod_state.py
(lines 177-204): conditions PodScheduled or Initialized with status False
contribute reasons; only when none do, waiting containers restricted to the
image-pull or creating allowlist contribute. -/
def _analyze_pending_conditions (pod : Pod) : List String :=
  let cond_reasons := (pod.status.conditions.map (fun c =>
    if c.type = "PodScheduled" ∧ c.status = "False" then
      ["Phase: Pending - Not Scheduled (" ++ py_repr c.reason ++ ": " ++
        py_repr c.message ++ ")"]
    else if c.type = "Initialized" ∧ c.status = "False" then
      ["Phase: Pending - Not Initialized (" ++ py_repr c.reason ++ ": " ++
        py_repr c.message ++ ")"]
    else [])).flatten
  if cond_reasons.isEmpty then
    (pod.status.container_statuses.map (fun cs =>
      match cs.state with
      | some st =>
        match st.waiting with
        | some w =>
          match w.reason with
          | some r =>
            if r ∈ ["ImagePullBackOff", "ErrImagePull", "ContainerCreating"] then
              ["Phase: Pending - Container Waiting (" ++ r ++ ": " ++
                w.message.getD "" ++ ")"]
            else []
          | none => []
        | none => []
      | none => [])).flatten
  else cond_reasons

/-- PodAnalyzer._analyze_pending_pod from pod_state.py (lines 150-175):
an unparseable creation timestamp yields a single parse-failure reason; a
pod pending longer than the threshold yields a single long-term reason and
stops; otherwise the pending conditions are inspected. -/
def _analyze_pending_pod (threshold_minutes now : Int) (pod : Pod) : List String :=
  match pod.metadata.creation_epoch with
  | none => ["Phase: Pending - Could not parse creation timestamp"]
  | some created =>
    let pending_seconds := now - created
    if pending_seconds > threshold_minutes * 60 then
      ["Phase: Long-term Pending (" ++ minutes_one_decimal pending_seconds ++ " min)"]
    else
      _analyze_pending_conditions pod

/-- PodAnalyzer._analyze_pod_phase from pod_state.py (lines 117-133):
Failed and Unknown phases yield one reason (with optional status reason and
message); Pending delegates to the pending analysis; every other phase
yields nothing. -/
def _analyze_pod_phase (threshold_minutes now : Int) (pod : Pod) : List String :=
  let phase := pod.status.phase
  if phase = "Failed" ∨ phase = "Unknown" then
    ["Phase: " ++ phase ++
      (if py_truthy pod.status.reason then
        " (" ++ pod.status.reason.getD "" ++ ")" else "") ++
      (if py_truthy pod.status.message then
        " - " ++ pod.status.message.getD "" else "")]
  else if phase = "Pending" then
    _analyze_pending_pod threshold_minutes now pod
  else []

/-- PodAnalyzer._analyze_container_statuses from pod_state.py
(lines 206-244): per container, a waiting reason on the crash or image-pull
allowlist, a terminated state with reason Error or OOMKilled or a non-zero
exit code, and a not-ready container with neither waiting nor terminated
state each contribute a reason naming the container. -/
def _analyze_container_statuses (pod : Pod) : List String :=
  (pod.status.container_statuses.map (fun cs =>
    (match cs.state.bind ContainerState.waiting with
     | some w =>
       match w.reason with
       | some r =>
         if r ∈ ["CrashLoopBackOff", "ImagePullBackOff", "ErrImagePull"] then
           ["Container " ++ squote ++ cs.name ++ squote ++ " Waiting: " ++ r ++ " - " ++
             w.message.getD ""]
         else []
       | none => []
     | none => []) ++
    (match cs.state.bind ContainerState.terminated with
     | some t =>
       if ((match t.reason with
            | some r => decide (r ∈ ["Error", "OOMKilled"])
            | none => false) ||
           (match t.exit_code with
            | some e => decide (e ≠ 0)
            | none => false)) then
         ["Container " ++ squote ++ cs.name ++ squote ++ " Terminated: " ++
           py_repr t.reason ++ " (Exit Code: " ++ py_repr_int t.exit_code ++
           ") - " ++ t.message.getD ""]
       else []
     | none => []) ++
    (if (!cs.ready) &&
        (!(match cs.state with
           | some st => st.waiting.isSome || st.terminated.isSome
           | none => false)) then
       ["Container " ++ squote ++ cs.name ++ squote ++ " Not Ready (Current State: " ++
         _get_container_state cs.state ++ ")"]
     else []))).flatten

/-- PodAnalyzer.is_pod_abnormal from pod_state.py (lines 105-115): phase
analysis followed by container analysis; the pod counts as abnormal exactly
when the combined reason list is non-empty. -/
def is_pod_abnormal (threshold_minutes now : Int) (pod : Pod) : List String :=
  _analyze_pod_phase threshold_minutes now pod ++ _analyze_container_statuses pod

/-- AbnormalPodInfo from pod_state.py (lines 41-62). -/
structure AbnormalPodInfo where
  timestamp : String
  cluster_name : String
  ns : String
  pod_name : String
  status : String
  node : String
  abnormal_reasons : String
deriving DecidableEq, Repr

/-- ClusterMonitor._analyze_pods from pod_state.py (lines 292-317): each
pod with a non-empty reason list yields one record whose abnormal_reasons
field joins the reasons with "; " in generation order. -/
def _analyze_pods (context_name current_time : String)
    (threshold_minutes now : Int) (pods : List Pod) : List AbnormalPodInfo :=
  (pods.map (fun pod =>
    let rs := is_pod_abnormal threshold_minutes now pod
    if rs.isEmpty then []
    else [{ timestamp := current_time, cluster_name := context_name,
            ns := pod.metadata.ns, pod_name := pod.metadata.name,
            status := pod.status.phase, node := or_na pod.node_name,
            abnormal_reasons := String.intercalate "; " rs }])).flatten

/-- Claim C5 (amended): every pod whose phase is neither Succeeded nor
Running is flagged abnormal by the main.py classifier check_abnormal_pods
and appears in its output. -/
theorem check_abnormal_pods_flags_non_normal_phase (ts cluster : String)
    (pods : List MainPod) (p : MainPod) (hp : p ∈ pods)
    (hph : p.phase ∉ NORMAL_POD_PHASES) :
    main_is_abnormal p = true ∧
    main_record_of ts cluster p ∈ check_abnormal_pods ts cluster pods := by
  have habn : main_is_abnormal p = true := by
    simp [main_is_abnormal, hph]
  exact ⟨habn, List.mem_map_of_mem _ (List.mem_filter.mpr ⟨hp, habn⟩)⟩

/-- A pod with phase Failed and no further detail. -/
def failed_pod : MainPod :=
  { ns := "default", name := "boom", phase := "Failed", status_reason := none,
    container_statuses := [], node_name := none }

/-- Witness for the amended claim C5 at a concrete Failed pod. -/
theorem check_abnormal_pods_flags_non_normal_phase_witness :
    failed_pod ∈ [failed_pod] ∧ failed_pod.phase ∉ NORMAL_POD_PHASES ∧
    (main_is_abnormal failed_pod = true ∧
     main_record_of "ts" "c" failed_pod ∈ check_abnormal_pods "ts" "c" [failed_pod]) :=
  ⟨List.mem_singleton.mpr rfl, by decide,
   check_abnormal_pods_flags_non_normal_phase "ts" "c" [failed_pod] failed_pod
     (List.mem_singleton.mpr rfl) (by decide)⟩

/-- A freshly created Pending pod with no failing conditions and no
container statuses, as seen by the pod_state.py classifier. -/
def pending_pod : Pod :=
  { metadata := { ns := "default", name := "stuck", creation_epoch := some 0 },
    node_name := none,
    status := { phase := "Pending", reason := none, message := none,
                conditions := [], container_statuses := [] } }

/-- Counterexample to claim C5 as stated: the pod_state.py classifier
(the second cited source) reports no reason for a young Pending pod, so the
pod does not appear in the abnormal output although its phase is neither
Succeeded nor Running (threshold 10 minutes, pod age 0 seconds). -/
theorem pod_state_pending_pod_not_abnormal_cex :
    (¬ (pending_pod.status.phase = "Succeeded" ∨
        pending_pod.status.phase = "Running")) ∧
    is_pod_abnormal 10 0 pending_pod = [] ∧
    _analyze_pods "ctx" "ts" 10 0 [pending_pod] = [] :=
  ⟨by decide, rfl, rfl⟩

/-- Claim C6 (amended): in main.py the reason list of a produced record is
deduplicated and sorted (in the code-point order Python sorted uses) before
joining, and an abnormal pod with an empty reason set renders "N/A"; the
pod_state.py variant joins reasons in generation order instead. -/
theorem main_display_reasons_sorted_dedup (ts cluster : String) (p : MainPod) :
    (main_record_of ts cluster p).reasons = display_reasons (main_reasons p) ∧
    (sorted_dedup (main_reasons p)).Sorted StrLe ∧
    (sorted_dedup (main_reasons p)).Nodup ∧
    (∀ x, x ∈ sorted_dedup (main_reasons p) ↔ x ∈ main_reasons p) ∧
    (main_reasons p = [] → (main_record_of ts cluster p).reasons = "N/A") := by
  refine ⟨rfl, List.sorted_insertionSort StrLe _,
    ((List.perm_insertionSort StrLe _).nodup_iff).mpr (List.nodup_dedup _),
    fun x => (List.perm_insertionSort StrLe _).mem_iff.trans List.mem_dedup,
    fun h => ?_⟩
  have hr : (main_record_of ts cluster p).reasons
      = display_reasons (main_reasons p) := rfl
  rw [hr, h]
  exact rfl

/-- Witness for the amended claim C6: the concrete Failed pod is abnormal
with an empty reason set and its record renders reasons as "N/A". -/
theorem main_display_reasons_sorted_dedup_witness :
    main_reasons failed_pod = [] ∧
    (main_record_of "ts" "c" failed_pod).reasons = "N/A" :=
  ⟨rfl, (main_display_reasons_sorted_dedup "ts" "c" failed_pod).2.2.2.2 rfl⟩

/-- A container stuck in CrashLoopBackOff, not ready, named n. -/
def crashloop_container (n : String) : ContainerStatus :=
  { name := n, ready := false, restart_count := 0,
    state := some { running := false,
                    waiting := some { reason := some "CrashLoopBackOff",
                                      message := none },
                    terminated := none } }

/-- A Running pod with two CrashLoopBackOff containers named b then a. -/
def two_container_pod : Pod :=
  { metadata := { ns := "default", name := "two", creation_epoch := some 0 },
    node_name := some "n1",
    status := { phase := "Running", reason := none, message := none,
                conditions := [],
                container_statuses := [crashloop_container "b",
                                       crashloop_container "a"] } }

/-- Counterexample to claim C6 as stated: the pod_state.py record joins the
two generated reasons in container order b before a, a list that is not
sorted (and is never deduplicated or sorted before joining). -/
theorem pod_state_reasons_unsorted_cex :
    (_analyze_pods "ctx" "ts" 10 0 [two_container_pod]).map
        AbnormalPodInfo.abnormal_reasons
      = [String.intercalate "; " (is_pod_abnormal 10 0 two_container_pod)] ∧
    (is_pod_abnormal 10 0 two_container_pod).length = 2 ∧
    ¬ (is_pod_abnormal 10 0 two_container_pod).Sorted StrLe :=
  ⟨rfl, rfl, by decide⟩

/-- The spec scenario pod for the pod_state.py classifier: phase Running,
one container named zeta, not ready, waiting with reason CrashLoopBackOff. -/
def scenario_pod : Pod :=
  { metadata := { ns := "default", name := "crash", creation_epoch := some 0 },
    node_name := some "n1",
    status := { phase := "Running", reason := none, message := none,
                conditions := [],
                container_statuses := [crashloop_container "zeta"] } }

/-- The same scenario pod as read by main.py. -/
def scenario_main_pod : MainPod :=
  { ns := "default", name := "crash", phase := "Running", status_reason := none,
    container_statuses := [
      { name := "zeta", ready := false, restart_count := 0,
        state := { waiting := some { reason := some "CrashLoopBackOff" },
                   terminated := none } }],
    node_name := some "n1" }

/-- Claim C7 (amended): on the CrashLoopBackOff scenario both classifiers
report the pod abnormal and both reason lists mention CrashLoopBackOff; the
pod_state.py reason also names the container, while main.py records only
the bare waiting reason. -/
theorem crashloop_scenario_classified :
    is_pod_abnormal 10 0 scenario_pod ≠ [] ∧
    (∃ r ∈ is_pod_abnormal 10 0 scenario_pod,
       "zeta".data <:+: r.data ∧ "CrashLoopBackOff".data <:+: r.data) ∧
    main_is_abnormal scenario_main_pod = true ∧
    "CrashLoopBackOff" ∈ main_reasons scenario_main_pod :=
  ⟨by decide, by decide, rfl, by decide⟩

/-- Counterexample to claim C7 as stated: in main.py (the first cited
source) the scenario pod is abnormal but its only reason is the bare string
CrashLoopBackOff; no reason string contains the container name zeta, so no
reason identifies the container. -/
theorem main_crashloop_reason_lacks_container_name_cex :
    main_is_abnormal scenario_main_pod = true ∧
    main_reasons scenario_main_pod = ["CrashLoopBackOff"] ∧
    (∀ r ∈ main_reasons scenario_main_pod, ¬ ("zeta".data <:+: r.data)) :=
  ⟨rfl, rfl, by decide⟩

/-- The aggregate stats block of the dashboard payload
(web_server.py line 84). -/
structure DashStats where
  total : Nat
  new : Nat
  ongoing : Nat
  resolved : Nat
deriving DecidableEq, Repr

/-- The two chart dicts of the dashboard payload (web_server.py lines
86-89).  The source keeps labels and values as two parallel lists drawn
from one ordered dict; the dict itself is modelled as the list of
(label, value) pairs. -/
structure DashCharts where
  status_distribution : List (String × Nat)
  cluster_distribution : List (String × Nat)
deriving DecidableEq, Repr

/-- The cached dashboard view built by format_data_for_dashboard. -/
structure DashView where
  stats : DashStats
  lists : DiffResult
  charts : DashCharts
  last_updated : String
deriving DecidableEq, Repr

/-- counts[k] = counts.get(k, 0) + 1 on an insertion-ordered dict. -/
def bump : List (String × Nat) → String → List (String × Nat)
  | [], k => [(k, 1)]
  | (a, n) :: rest, k =>
    if a = k then (a, n + 1) :: rest else (a, n) :: bump rest k

/-- The counting loop of format_data_for_dashboard (web_server.py lines
80-82), for one projection of the record. -/
def counts_by (f : PodRecord → String) (pods : List PodRecord) :
    List (String × Nat) :=
  pods.foldl (fun m p => bump m (f p)) []

/-- format_data_for_dashboard from web_server.py (lines 78-90). -/
def format_data_for_dashboard (today_pods : List PodRecord)
    (analysis : DiffResult) (now_iso : String) : DashView :=
  { stats := { total := today_pods.length, new := analysis.new.length,
               ongoing := analysis.ongoing.length,
               resolved := analysis.resolved.length },
    lists := analysis,
    charts := { status_distribution := counts_by PodRecord.status today_pods,
                cluster_distribution := counts_by PodRecord.cluster today_pods },
    last_updated := now_iso }

/-- background_thread_status from web_server.py line 10. -/
structure BgStatus where
  running : Bool
  last_run : String
  last_result : String
deriving DecidableEq, Repr

/-- The process-wide state of web_server.py: the scan lock, the status
dict, the cached view (none models the initial empty dict) and the data
directory.  lock_held is the value of background_task_lock.locked() at the
moment a request is handled. -/
structure ServerState where
  lock_held : Bool
  bg : BgStatus
  cached_data : Option DashView
  fs : FileStore

/-- The inputs one scan cycle draws from the outside world: the outcome of
check_all_clusters (an exception escaping the try block is Except.error),
whether the snapshot write raises IOError inside save_to_file, the
accelerator, the two calendar dates, and the wall-clock strings. -/
structure CycleEnv where
  collect : Except String (List PodRecord)
  write_fails : Bool
  accel : Option (List Key → List Key → Except String RustResult)
  today : Date
  yesterday : Date
  now_iso : String
  now_human : String

/-- run_monitor_check from web_server.py (lines 62-76), the body executed
under the scan lock: on an exception from the collect step the status
records the failure and nothing else changes; otherwise the snapshot is
saved (a caught write failure leaves the store unchanged), yesterday's
snapshot is loaded, the diff runs, and a freshly built view replaces
cached_data before the status records success.  The returned state has the
lock released. -/
def run_monitor_check (s : ServerState) (env : CycleEnv) : ServerState :=
  match env.collect with
  | Except.error e =>
    { s with lock_held := false,
             bg := { s.bg with last_result := "Failed: " ++ e,
                               running := false } }
  | Except.ok today_pods =>
    let fs2 := save_to_file s.fs today_pods env.today env.write_fails
    let analysis := analyze_changes env.accel today_pods
      (load_from_file fs2 env.yesterday)
    { lock_held := false,
      bg := { running := false, last_run := env.now_human,
              last_result := "Success" },
      cached_data := some (format_data_for_dashboard today_pods analysis
        env.now_iso),
      fs := fs2 }

/-- The response of the /api/run-check route. -/
inductive TriggerResult where
  | accepted (message : String)
  | rejected (message : String)
deriving DecidableEq, Repr

/-- force_run_check from web_server.py (lines 56-60): if the scan lock is
held the request is answered 429 "Scan in progress." at once; otherwise a
scan cycle is started. -/
def force_run_check (s : ServerState) (env : CycleEnv) :
    TriggerResult × ServerState :=
  if s.lock_held then (TriggerResult.rejected "Scan in progress.", s)
  else (TriggerResult.accepted "New scan initiated.", run_monitor_check s env)

/-- The /api/data payload: the cached view merged with the status dict. -/
structure ApiResponse where
  view : Option DashView
  background_status : BgStatus
deriving DecidableEq, Repr

/-- get_api_data from web_server.py (lines 15-18): with an empty cache it
first runs run_monitor_check synchronously (third component true: the
request executed a scan cycle, acquiring the scan lock); with a published
view it only reads. -/
def get_api_data (s : ServerState) (env : CycleEnv) :
    ApiResponse × ServerState × Bool :=
  match s.cached_data with
  | some v => ({ view := some v, background_status := s.bg }, s, false)
  | none =>
    let s2 := run_monitor_check s env
    ({ view := s2.cached_data, background_status := s2.bg }, s2, true)

/-- Claim C3: while the scan lock is held, a trigger_scan request is
rejected immediately with the in-progress indication and the server state
(and with it the in-flight cycle) is left untouched. -/
theorem force_run_check_rejected_while_locked (s : ServerState)
    (env : CycleEnv) (h : s.lock_held = true) :
    force_run_check s env = (TriggerResult.rejected "Scan in progress.", s) := by
  simp [force_run_check, h]

/-- A server state with the scan lock held and a published view. -/
def locked_state : ServerState :=
  { lock_held := true,
    bg := { running := true, last_run := "Never", last_result := "N/A" },
    cached_data := none, fs := [] }

/-- A cycle environment whose collect step yields one record. -/
def env_ok : CycleEnv :=
  { collect := Except.ok [rec1], write_fails := false, accel := none,
    today := { year := 2024, month := 5, day := 2 },
    yesterday := { year := 2024, month := 5, day := 1 },
    now_iso := "2024-05-02T12:00:00", now_human := "2024-05-02 12:00:00" }

/-- Witness for claim C3 at a concrete locked state. -/
theorem force_run_check_rejected_while_locked_witness :
    locked_state.lock_held = true ∧
    force_run_check locked_state env_ok
      = (TriggerResult.rejected "Scan in progress.", locked_state) :=
  ⟨rfl, force_run_check_rejected_while_locked locked_state env_ok rfl⟩

/-- Claim C4 (amended): an exception escaping the collect-and-save block of
run_monitor_check records a Failed result and leaves both the cached view
and the snapshot store untouched; but an IOError raised while writing the
snapshot is caught inside save_to_file, so the cycle is recorded as
Success and a freshly built cached view is still published even though the
store is unchanged. -/
theorem run_monitor_check_failure_semantics (s : ServerState) (env : CycleEnv)
    (pods : List PodRecord) (e : String) :
    (env.collect = Except.error e →
      (run_monitor_check s env).bg.last_result = "Failed: " ++ e ∧
      (run_monitor_check s env).cached_data = s.cached_data ∧
      (run_monitor_check s env).fs = s.fs) ∧
    (env.collect = Except.ok pods → env.write_fails = true →
      (run_monitor_check s env).bg.last_result = "Success" ∧
      (run_monitor_check s env).fs = s.fs ∧
      (run_monitor_check s env).cached_data
        = some (format_data_for_dashboard pods
            (analyze_changes env.accel pods (load_from_file s.fs env.yesterday))
            env.now_iso)) := by
  constructor
  · intro h
    simp [run_monitor_check, h]
  · intro h hw
    simp [run_monitor_check, h, save_to_file, hw]

/-- A published view from an earlier cycle. -/
def old_view : DashView :=
  { stats := { total := 0, new := 0, ongoing := 0, resolved := 0 },
    lists := { new := [], ongoing := [], resolved := [] },
    charts := { status_distribution := [], cluster_distribution := [] },
    last_updated := "old" }

/-- An idle server state holding the earlier view. -/
def idle_state : ServerState :=
  { lock_held := false,
    bg := { running := false, last_run := "old", last_result := "Success" },
    cached_data := some old_view, fs := [] }

/-- env_ok with a snapshot write that raises IOError. -/
def env_write_fails : CycleEnv :=
  { env_ok with write_fails := true }

/-- env_ok with the collect step raising. -/
def env_err : CycleEnv :=
  { env_ok with collect := Except.error "boom" }

/-- Counterexample to claim C4 as stated: in a cycle whose snapshot write
fails, the recorded result is Success, not Failed, and the previously
published cached view is replaced by a newly built one. -/
theorem snapshot_write_failure_marked_success_cex :
    env_write_fails.write_fails = true ∧
    (run_monitor_check idle_state env_write_fails).bg.last_result = "Success" ∧
    (run_monitor_check idle_state env_write_fails).cached_data
      ≠ idle_state.cached_data :=
  ⟨rfl, rfl, by decide⟩

/-- Witness for the amended claim C4 at concrete failing environments. -/
theorem run_monitor_check_failure_semantics_witness :
    ((run_monitor_check idle_state env_err).bg.last_result = "Failed: " ++ "boom" ∧
     (run_monitor_check idle_state env_err).cached_data = idle_state.cached_data ∧
     (run_monitor_check idle_state env_err).fs = idle_state.fs) ∧
    ((run_monitor_check idle_state env_write_fails).bg.last_result = "Success" ∧
     (run_monitor_check idle_state env_write_fails).fs = idle_state.fs ∧
     (run_monitor_check idle_state env_write_fails).cached_data
       = some (format_data_for_dashboard [rec1]
           (analyze_changes env_write_fails.accel [rec1]
             (load_from_file idle_state.fs env_write_fails.yesterday))
           env_write_fails.now_iso)) :=
  ⟨(run_monitor_check_failure_semantics idle_state env_err [] "boom").1 rfl,
   (run_monitor_check_failure_semantics idle_state env_write_fails [rec1] "").2
     rfl rfl⟩

/-- Claim C9 (amended): whenever a complete view has been published,
get_api_data only reads and returns it, leaves the server state untouched
and runs no scan cycle; with a never-filled cache it instead executes
run_monitor_check synchronously (counterexample to the unconditional
claim). -/
theorem get_api_data_reads_published_view (s : ServerState) (env : CycleEnv)
    (v : DashView) (h : s.cached_data = some v) :
    get_api_data s env
      = ({ view := some v, background_status := s.bg }, s, false) := by
  simp [get_api_data, h]

/-- Witness for the amended claim C9 at a state with a published view. -/
theorem get_api_data_reads_published_view_witness :
    idle_state.cached_data = some old_view ∧
    get_api_data idle_state env_ok
      = ({ view := some old_view, background_status := idle_state.bg },
         idle_state, false) :=
  ⟨rfl, get_api_data_reads_published_view idle_state env_ok old_view rfl⟩

/-- The server state before any cycle has published a view. -/
def empty_cache_state : ServerState :=
  { lock_held := false,
    bg := { running := false, last_run := "Never", last_result := "N/A" },
    cached_data := none, fs := [] }

/-- Counterexample to claim C9 as stated: with an empty cache, a reader
request executes a full scan cycle itself (acquiring the scan lock) instead
of only reading. -/
theorem get_api_data_empty_cache_runs_scan_cex :
    empty_cache_state.cached_data = none ∧
    (get_api_data empty_cache_state env_ok).2.2 = true ∧
    (get_api_data empty_cache_state env_ok).2.1
      = run_monitor_check empty_cache_state env_ok :=
  ⟨rfl, rfl, rfl⟩

lemma bump_snd_sum (m : List (String × Nat)) (k : String) :
    ((bump m k).map Prod.snd).sum = (m.map Prod.snd).sum + 1 := by
  induction m with
  | nil => rfl
  | cons a rest ih =>
    rcases a with ⟨a1, a2⟩
    by_cases h : a1 = k
    · simp [bump, h]
      omega
    · simp [bump, h, ih]
      omega

lemma counts_by_foldl_sum (f : PodRecord → String) (pods : List PodRecord) :
    ∀ m, ((pods.foldl (fun m p => bump m (f p)) m).map Prod.snd).sum
      = (m.map Prod.snd).sum + pods.length := by
  induction pods with
  | nil => intro m; simp
  | cons p rest ih =>
    intro m
    simp only [List.foldl_cons, List.length_cons]
    rw [ih (bump m (f p)), bump_snd_sum]
    omega

lemma counts_by_sum (f : PodRecord → String) (pods : List PodRecord) :
    ((counts_by f pods).map Prod.snd).sum = pods.length := by
  have h := counts_by_foldl_sum f pods []
  simpa [counts_by] using h

/-- Claim C10: the view published by a successful cycle is internally
consistent: stats.total is the number of current-snapshot records, the
three bucket counters equal the lengths of the corresponding lists in the
view, and the values of the status distribution and of the cluster
distribution each sum to stats.total. -/
theorem published_view_consistent (s : ServerState) (env : CycleEnv)
    (pods : List PodRecord) (h : env.collect = Except.ok pods) :
    ∃ v, (run_monitor_check s env).cached_data = some v ∧
      v.stats.total = pods.length ∧
      v.stats.new = v.lists.new.length ∧
      v.stats.ongoing = v.lists.ongoing.length ∧
      v.stats.resolved = v.lists.resolved.length ∧
      (v.charts.status_distribution.map Prod.snd).sum = v.stats.total ∧
      (v.charts.cluster_distribution.map Prod.snd).sum = v.stats.total := by
  refine ⟨format_data_for_dashboard pods
    (analyze_changes env.accel pods
      (load_from_file (save_to_file s.fs pods env.today env.write_fails)
        env.yesterday))
    env.now_iso, ?_, rfl, rfl, rfl, rfl, ?_, ?_⟩
  · simp [run_monitor_check, h]
  · exact counts_by_sum PodRecord.status pods
  · exact counts_by_sum PodRecord.cluster pods

/-- Witness for claim C10 at a concrete one-record cycle. -/
theorem published_view_consistent_witness :
    env_ok.collect = Except.ok [rec1] ∧
    (∃ v, (run_monitor_check idle_state env_ok).cached_data = some v ∧
      v.stats.total = [rec1].length ∧
      v.stats.new = v.lists.new.length ∧
      v.stats.ongoing = v.lists.ongoing.length ∧
      v.stats.resolved = v.lists.resolved.length ∧
      (v.charts.status_distribution.map Prod.snd).sum = v.stats.total ∧
      (v.charts.cluster_distribution.map Prod.snd).sum = v.stats.total) :=
  ⟨rfl, published_view_consistent idle_state env_ok [rec1] rfl⟩
